import Mathlib

/-!
Verification of the `my_vdev` keyboard→mouse virtual-device driver
(zTsugumi/7th_Semester_OSCourseWork).

The driver's core pipeline is embedded shallowly:
* `scancode_to_ascii` — the pure scancode→character translation table;
* `put_scancode` — the two-slot key-history (shift/latch) update run by
  the keyboard interrupt handler;
* `mouse_tasklet_handler` — the deferred translation stage, modelled as a
  function from the device state to the list of events it pushes to the
  input subsystem;
* `vdev_write` — the control-surface write handler, modelled on the
  success path of `kmalloc`/`copy_from_user`.

Machine integers are `Nat` (byte values) and `Int`; characters are their
ASCII codes.  The `kmalloc`'d temporary buffer in `vdev_write` is not
NUL-terminated and both `memcpy(.., buf + 2, 4)` and `kstrtol(buf + 2, ..)`
can read past the copied user bytes, so the model takes an explicit `heap`
parameter: the (arbitrary) bytes that sit in the allocation after the
copied region, with the convention that the byte after the end of the
`heap` list is 0 (NUL).  `kstrtol` itself is external kernel library code
(`lib/kstrtox.c`); it is modelled from its documented behaviour: an
optional leading sign — '-' handled by `kstrtoll`, or '+' skipped by
`kstrtoull` on the non-negative path — a non-empty run of decimal digits,
an optional single trailing newline, then the NUL terminator, with the
result stored only on success.
-/

namespace Vdev

/-! ## Constants (my_vdev.h) -/

def SCANCODE_RELEASED_MASK : Nat := 0x80

def SCANCODE_LALT_MASK : Nat := 0x38

def BUF_SIZE : Nat := 64

/-! ## ScancodeTable: `scancode_to_ascii` -/

def row1 : String := "1234567890"

def row2 : String := "qwertyuiop"

def row3 : String := "asdfghjkl"

def row4 : String := "zxcvbnm"

/-- `scancode_to_ascii` from the source: strips the release bit, then maps
the four keyboard rows, space and enter, and returns `'?'` otherwise.
The argument is a byte value; characters are returned as ASCII codes. -/
def scancode_to_ascii (scancode : Nat) : Nat :=
  let s := scancode &&& 0x7f
  if 0x02 ≤ s ∧ s ≤ 0x0b then (row1.data.getD (s - 0x02) '?').toNat
  else if 0x10 ≤ s ∧ s ≤ 0x19 then (row2.data.getD (s - 0x10) '?').toNat
  else if 0x1e ≤ s ∧ s ≤ 0x26 then (row3.data.getD (s - 0x1e) '?').toNat
  else if 0x2c ≤ s ∧ s ≤ 0x32 then (row4.data.getD (s - 0x2c) '?').toNat
  else if s = 0x39 then ' '.toNat
  else if s = 0x1c then '\n'.toNat
  else '?'.toNat

/-! ## Device state (struct vdev) -/

/-- The mutable part of `struct vdev`: the two-slot key history `buf`,
the four-character direction map and the speed. -/
structure VdevState where
  buf0 : Nat
  buf1 : Nat
  map0 : Nat
  map1 : Nat
  map2 : Nat
  map3 : Nat
  spd : Int
deriving DecidableEq, Repr

/-- The state set up by `vdev_init`: zeroed history, map "wsad", speed 10. -/
def initState : VdevState :=
  { buf0 := 0, buf1 := 0
    map0 := 'w'.toNat, map1 := 's'.toNat, map2 := 'a'.toNat, map3 := 'd'.toNat
    spd := 10 }

/-! ## Events pushed to the input subsystem -/

/-- One call into the input core: `input_report_rel(.., REL_X/REL_Y, v)`
or `input_sync`. -/
inductive Event where
  | relX : Int → Event
  | relY : Int → Event
  | sync : Event
deriving DecidableEq, Repr

def isMovement : Event → Bool
  | Event.relX _ => true
  | Event.relY _ => true
  | Event.sync => false

def movementCount (l : List Event) : Nat := (l.filter isMovement).length

/-! ## TranslateStage: `mouse_tasklet_handler` -/

/-- `mouse_tasklet_handler`, modelled as the list of events it emits from
a given device state. -/
def mouse_tasklet_handler (d : VdevState) : List Event :=
  if d.buf0 = SCANCODE_LALT_MASK then
    let ch := scancode_to_ascii d.buf1
    if ch = d.map0 then [Event.relY (-d.spd), Event.sync]
    else if ch = d.map1 then [Event.relY d.spd, Event.sync]
    else if ch = d.map2 then [Event.relX (-d.spd), Event.sync]
    else if ch = d.map3 then [Event.relX d.spd, Event.sync]
    else []
  else []

/-! ## CaptureStage: `put_scancode` and `kbd_interrupt_handler` -/

/-- `put_scancode` from the source: shift `buf[0] := buf[1]` when the
stored previous key is not the modifier, or when the translated character
equals all four mapped characters; then unconditionally `buf[1] := s`. -/
def put_scancode (d : VdevState) (scancode : Nat) : VdevState :=
  let ch := scancode_to_ascii scancode
  let d1 :=
    if d.buf0 ≠ SCANCODE_LALT_MASK ∨
        (ch = d.map0 ∧ ch = d.map1 ∧ ch = d.map2 ∧ ch = d.map3) then
      { d with buf0 := d.buf1 }
    else d
  { d1 with buf1 := scancode }

def is_key_pressed (scancode : Nat) : Bool :=
  scancode &&& SCANCODE_RELEASED_MASK = 0

/-- `kbd_interrupt_handler`: on a press, update the history and schedule
the tasklet (the returned Bool records whether the tasklet was
scheduled); on a release, do nothing.  The IRQ is always reported as not
handled, which the model leaves implicit. -/
def kbd_interrupt_handler (d : VdevState) (scancode : Nat) : VdevState × Bool :=
  if is_key_pressed scancode then (put_scancode d scancode, true) else (d, false)

/-! ## ConfigPort: `vdev_write` and the modelled `kstrtol` -/

def isDigitByte (b : Nat) : Bool := 48 ≤ b ∧ b ≤ 57

/-- Consume the maximal leading run of decimal digits, accumulating the
value (`_parse_integer` with base 10). -/
def parseUInt (acc : Nat) : List Nat → Nat × List Nat
  | [] => (acc, [])
  | b :: rest =>
      if isDigitByte b then parseUInt (acc * 10 + (b - 48)) rest
      else (acc, b :: rest)

/-- Whether the byte sequence has reached the NUL terminator: either the
next byte is 0, or the modelled allocation has run out (the byte after
the end of the list is 0 by convention). -/
def isNulTerm : List Nat → Bool
  | [] => true
  | b :: _ => b = 0

/-- The unsigned part of `kstrtol` (`_kstrtoull` with base 10): a
non-empty digit run, an optional single '\n', then NUL; overflow past
the unsigned 64-bit range is an error. -/
def kstrtoull_tail (s : List Nat) : Option Nat :=
  if isDigitByte (s.headD 0) then
    let (v, rest) := parseUInt 0 s
    if isNulTerm rest then
      if v < 2 ^ 64 then some v else none
    else if rest.headD 0 = 10 ∧ isNulTerm rest.tail then
      if v < 2 ^ 64 then some v else none
    else none
  else none

/-- `kstrtol` (base 10) on the byte sequence starting at the given
pointer: a leading '-' is handled by `kstrtoll` itself; otherwise the
string goes through `kstrtoull`, which skips one leading '+'; then the
unsigned part and the signed 64-bit range check.  (No '+' is accepted
after the '-', matching the kernel: the negative branch calls
`_kstrtoull` directly.) -/
def kstrtol (s : List Nat) : Option Int :=
  if s.headD 0 = 45 then
    match kstrtoull_tail s.tail with
    | some v => if v ≤ 2 ^ 63 then some (-(v : Int)) else none
    | none => none
  else
    match kstrtoull_tail (if s.headD 0 = 43 then s.tail else s) with
    | some v => if v < 2 ^ 63 then some (v : Int) else none
    | none => none

/-- Truncation of the parsed `long` to the `int` field `spd` (the source
stores the result through `(long int*)&data->spd`; the `int` field keeps
the low 32 bits, two's complement). -/
def wrap32 (v : Int) : Int :=
  let m := v % (2 ^ 32)
  if m < 2 ^ 31 then m else m - 2 ^ 32

/-- `vdev_write` on the success path of `kmalloc` and `copy_from_user`.
`ubuf` is the caller's byte sequence (`count = ubuf.length`); `heap` is
the uninitialized memory following the `size` copied bytes in the
`kmalloc`'d buffer, with an implicit NUL after its end.  Returns the new
state and the returned byte count `size = min BUF_SIZE count`. -/
def vdev_write (d : VdevState) (ubuf : List Nat) (heap : List Nat) :
    VdevState × Nat :=
  let size := min BUF_SIZE ubuf.length
  let mem := ubuf.take size ++ heap
  let cmd : Int := (mem.getD 0 0 : Int) - 48
  let d' :=
    if cmd = 0 then
      { d with map0 := mem.getD 2 0, map1 := mem.getD 3 0
               map2 := mem.getD 4 0, map3 := mem.getD 5 0 }
    else if cmd = 1 then
      match kstrtol (mem.drop 2) with
      | some v => { d with spd := wrap32 v }
      | none => d
    else d
  (d', size)

/-- Byte sequence of an ASCII string, for concrete control writes. -/
def strBytes (s : String) : List Nat := s.data.map Char.toNat

/-! ## Specification-side translation table (for the refinement claim) -/

/-- The translation table as the spec describes it: a static lookup table
associating each in-range scancode (release bit stripped) with its
character, with `'?'` as the default.  This definition follows the
spec's words and is compared with the source-derived
`scancode_to_ascii`. -/
def specTable : List (Nat × Char) :=
  ((List.range 10).map fun i => (0x02 + i, "1234567890".data.getD i '?')) ++
  ((List.range 10).map fun i => (0x10 + i, "qwertyuiop".data.getD i '?')) ++
  ((List.range 9).map fun i => (0x1e + i, "asdfghjkl".data.getD i '?')) ++
  ((List.range 7).map fun i => (0x2c + i, "zxcvbnm".data.getD i '?')) ++
  [(0x39, ' '), (0x1c, '\n')]

def spec_translate (code : Nat) : Nat :=
  ((specTable.lookup (code % 128)).getD '?').toNat

/-! ## Theorems -/

set_option maxRecDepth 8192

/-- C5: `scancode_to_ascii` is a total function over all 256 byte
values: it strips the release bit and realizes exactly the spec's
lookup table — the four row strings, space, enter — returning the
sentinel `'?'` for every code outside those ranges/specials. -/
theorem scancode_to_ascii_total_table :
    ∀ code : Nat, code < 256 → scancode_to_ascii code = spec_translate code := by
  decide

theorem scancode_to_ascii_total_table_witness :
    (0x91 : Nat) < 256 ∧ scancode_to_ascii 0x91 = spec_translate 0x91 :=
  ⟨by decide, scancode_to_ascii_total_table 0x91 (by decide)⟩

/-- C1: the translation stage emits a movement event iff
`previous = ModifierMask` and `translate current` equals one of the four
map characters; under the modifier it compares in the fixed order
{up, down, left, right} and on the first match emits exactly one
relative-movement event — up → (0, −speed), down → (0, +speed),
left → (−speed, 0), right → (+speed, 0) — followed by a sync marker;
otherwise it emits nothing, and at most one movement per run. -/
theorem mouse_tasklet_handler_spec (d : VdevState) :
    (mouse_tasklet_handler d ≠ [] ↔
      d.buf0 = SCANCODE_LALT_MASK ∧
        scancode_to_ascii d.buf1 ∈ [d.map0, d.map1, d.map2, d.map3]) ∧
    (d.buf0 ≠ SCANCODE_LALT_MASK → mouse_tasklet_handler d = []) ∧
    (d.buf0 = SCANCODE_LALT_MASK →
      (scancode_to_ascii d.buf1 = d.map0 →
        mouse_tasklet_handler d = [Event.relY (-d.spd), Event.sync]) ∧
      (scancode_to_ascii d.buf1 ≠ d.map0 → scancode_to_ascii d.buf1 = d.map1 →
        mouse_tasklet_handler d = [Event.relY d.spd, Event.sync]) ∧
      (scancode_to_ascii d.buf1 ≠ d.map0 → scancode_to_ascii d.buf1 ≠ d.map1 →
          scancode_to_ascii d.buf1 = d.map2 →
        mouse_tasklet_handler d = [Event.relX (-d.spd), Event.sync]) ∧
      (scancode_to_ascii d.buf1 ≠ d.map0 → scancode_to_ascii d.buf1 ≠ d.map1 →
          scancode_to_ascii d.buf1 ≠ d.map2 → scancode_to_ascii d.buf1 = d.map3 →
        mouse_tasklet_handler d = [Event.relX d.spd, Event.sync]) ∧
      (scancode_to_ascii d.buf1 ∉ [d.map0, d.map1, d.map2, d.map3] →
        mouse_tasklet_handler d = [])) ∧
    movementCount (mouse_tasklet_handler d) ≤ 1 := by
  unfold mouse_tasklet_handler
  dsimp only
  split_ifs with h1 h2 h3 h4 h5 <;>
    simp_all [movementCount, isMovement]

theorem mouse_tasklet_handler_spec_witness :
    let d : VdevState := { initState with buf0 := SCANCODE_LALT_MASK, buf1 := 0x11 }
    (mouse_tasklet_handler d ≠ [] ↔
      d.buf0 = SCANCODE_LALT_MASK ∧
        scancode_to_ascii d.buf1 ∈ [d.map0, d.map1, d.map2, d.map3]) ∧
    (d.buf0 ≠ SCANCODE_LALT_MASK → mouse_tasklet_handler d = []) ∧
    (d.buf0 = SCANCODE_LALT_MASK →
      (scancode_to_ascii d.buf1 = d.map0 →
        mouse_tasklet_handler d = [Event.relY (-d.spd), Event.sync]) ∧
      (scancode_to_ascii d.buf1 ≠ d.map0 → scancode_to_ascii d.buf1 = d.map1 →
        mouse_tasklet_handler d = [Event.relY d.spd, Event.sync]) ∧
      (scancode_to_ascii d.buf1 ≠ d.map0 → scancode_to_ascii d.buf1 ≠ d.map1 →
          scancode_to_ascii d.buf1 = d.map2 →
        mouse_tasklet_handler d = [Event.relX (-d.spd), Event.sync]) ∧
      (scancode_to_ascii d.buf1 ≠ d.map0 → scancode_to_ascii d.buf1 ≠ d.map1 →
          scancode_to_ascii d.buf1 ≠ d.map2 → scancode_to_ascii d.buf1 = d.map3 →
        mouse_tasklet_handler d = [Event.relX d.spd, Event.sync]) ∧
      (scancode_to_ascii d.buf1 ∉ [d.map0, d.map1, d.map2, d.map3] →
        mouse_tasklet_handler d = [])) ∧
    movementCount (mouse_tasklet_handler d) ≤ 1 :=
  mouse_tasklet_handler_spec _

/-- C2: `put_scancode` shifts `previous := current` exactly when the
stored previous key is not the modifier or the translated character
equals all four mapped characters simultaneously; otherwise `previous`
is left unchanged; in every case `current := s` afterwards. -/
theorem put_scancode_spec (d : VdevState) (s : Nat) :
    ((d.buf0 ≠ SCANCODE_LALT_MASK ∨
        (scancode_to_ascii s = d.map0 ∧ scancode_to_ascii s = d.map1 ∧
         scancode_to_ascii s = d.map2 ∧ scancode_to_ascii s = d.map3)) →
      (put_scancode d s).buf0 = d.buf1) ∧
    (¬(d.buf0 ≠ SCANCODE_LALT_MASK ∨
        (scancode_to_ascii s = d.map0 ∧ scancode_to_ascii s = d.map1 ∧
         scancode_to_ascii s = d.map2 ∧ scancode_to_ascii s = d.map3)) →
      (put_scancode d s).buf0 = d.buf0) ∧
    (put_scancode d s).buf1 = s := by
  unfold put_scancode
  dsimp only
  split_ifs with h <;> simp_all

theorem put_scancode_spec_witness :
    ((initState.buf0 ≠ SCANCODE_LALT_MASK ∨
        (scancode_to_ascii 0x11 = initState.map0 ∧
         scancode_to_ascii 0x11 = initState.map1 ∧
         scancode_to_ascii 0x11 = initState.map2 ∧
         scancode_to_ascii 0x11 = initState.map3)) →
      (put_scancode initState 0x11).buf0 = initState.buf1) ∧
    (¬(initState.buf0 ≠ SCANCODE_LALT_MASK ∨
        (scancode_to_ascii 0x11 = initState.map0 ∧
         scancode_to_ascii 0x11 = initState.map1 ∧
         scancode_to_ascii 0x11 = initState.map2 ∧
         scancode_to_ascii 0x11 = initState.map3)) →
      (put_scancode initState 0x11).buf0 = initState.buf0) ∧
    (put_scancode initState 0x11).buf1 = 0x11 :=
  put_scancode_spec initState 0x11

/-- A press that is not all-four-degenerate, taken from a state whose
previous slot holds the modifier, only replaces the current slot. -/
theorem put_scancode_latched_step (e : VdevState) (k : Nat)
    (hp : e.buf0 = SCANCODE_LALT_MASK)
    (hnd : ¬(scancode_to_ascii k = e.map0 ∧ scancode_to_ascii k = e.map1 ∧
             scancode_to_ascii k = e.map2 ∧ scancode_to_ascii k = e.map3)) :
    put_scancode e k = { e with buf1 := k } := by
  unfold put_scancode
  dsimp only
  split_ifs with h
  · rcases h with h | h
    · exact absurd hp h
    · exact absurd h hnd
  · rfl

/-- Iterating a latched non-degenerate press reaches the fixed point
`{ d with buf1 := k }` after one press. -/
theorem put_scancode_latched_iter (d : VdevState) (k : Nat)
    (hp : d.buf0 = SCANCODE_LALT_MASK)
    (hnd : ¬(scancode_to_ascii k = d.map0 ∧ scancode_to_ascii k = d.map1 ∧
             scancode_to_ascii k = d.map2 ∧ scancode_to_ascii k = d.map3)) :
    ∀ m : Nat, (fun x => put_scancode x k)^[m + 1] d = { d with buf1 := k } := by
  intro m
  induction m with
  | zero =>
    rw [Function.iterate_one]
    exact put_scancode_latched_step d k hp hnd
  | succ m ih =>
    rw [Function.iterate_succ_apply', ih]
    exact put_scancode_latched_step _ k hp hnd

/-- A state whose previous slot holds the modifier and whose current
key translates to one of the four map characters produces exactly one
movement event. -/
theorem handler_one_movement (e : VdevState)
    (hp : e.buf0 = SCANCODE_LALT_MASK)
    (hm : scancode_to_ascii e.buf1 ∈ [e.map0, e.map1, e.map2, e.map3]) :
    movementCount (mouse_tasklet_handler e) = 1 := by
  unfold mouse_tasklet_handler
  dsimp only
  split_ifs <;> simp_all [movementCount, isMovement]

/-- C3: with a non-degenerate map whose characters include the
translation of a press scancode `k`, starting from
`previous = ModifierMask`, every number `n ≥ 1` of repeated presses of
`k` leaves `previous = ModifierMask` and the scheduled translation run
after the `n`-th press emits exactly one movement event: the modifier is
never evicted by ordinary direction-key presses. -/
theorem latch_spec (d : VdevState) (k n : Nat)
    (_hk : k < 128)
    (hnd : ¬(d.map0 = d.map1 ∧ d.map1 = d.map2 ∧ d.map2 = d.map3))
    (hm : scancode_to_ascii k ∈ [d.map0, d.map1, d.map2, d.map3])
    (hp : d.buf0 = SCANCODE_LALT_MASK)
    (hn : 1 ≤ n) :
    ((fun x => put_scancode x k)^[n] d).buf0 = SCANCODE_LALT_MASK ∧
    movementCount (mouse_tasklet_handler ((fun x => put_scancode x k)^[n] d)) = 1 := by
  have hnd' : ¬(scancode_to_ascii k = d.map0 ∧ scancode_to_ascii k = d.map1 ∧
      scancode_to_ascii k = d.map2 ∧ scancode_to_ascii k = d.map3) := by
    rintro ⟨h0, h1, h2, h3⟩
    exact hnd ⟨h0.symm.trans h1, h1.symm.trans h2, h2.symm.trans h3⟩
  obtain ⟨m, rfl⟩ : ∃ m, n = m + 1 := ⟨n - 1, (Nat.succ_pred_eq_of_pos hn).symm⟩
  rw [put_scancode_latched_iter d k hp hnd']
  exact ⟨hp, handler_one_movement _ hp hm⟩

theorem latch_spec_witness :
    let d : VdevState := { initState with buf0 := SCANCODE_LALT_MASK }
    (0x11 : Nat) < 128 ∧
    ¬(d.map0 = d.map1 ∧ d.map1 = d.map2 ∧ d.map2 = d.map3) ∧
    scancode_to_ascii 0x11 ∈ [d.map0, d.map1, d.map2, d.map3] ∧
    d.buf0 = SCANCODE_LALT_MASK ∧ (1 : Nat) ≤ 3 ∧
    (((fun x => put_scancode x 0x11)^[3] d).buf0 = SCANCODE_LALT_MASK ∧
      movementCount (mouse_tasklet_handler ((fun x => put_scancode x 0x11)^[3] d)) = 1) :=
  ⟨by decide, by decide, by decide, by decide, by decide,
    latch_spec _ 0x11 3 (by decide) (by decide) (by decide) (by decide) (by decide)⟩

/-- C4 counterexample: with the degenerate map "aaaa" and the modifier
latched as `previous`, pressing the 'w' key (scancode 0x11) does not
advance `previous` — it stays the modifier instead of becoming the old
`current`. -/
theorem degenerate_any_press_counterexample :
    (put_scancode
        { buf0 := SCANCODE_LALT_MASK, buf1 := 0x1e
          map0 := 'a'.toNat, map1 := 'a'.toNat, map2 := 'a'.toNat
          map3 := 'a'.toNat, spd := 10 } 0x11).buf0 ≠ (0x1e : Nat) ∧
    (put_scancode
        { buf0 := SCANCODE_LALT_MASK, buf1 := 0x1e
          map0 := 'a'.toNat, map1 := 'a'.toNat, map2 := 'a'.toNat
          map3 := 'a'.toNat, spd := 10 } 0x11).buf0 = SCANCODE_LALT_MASK := by
  decide

/-- C4 amended: with an all-equal map and `previous = ModifierMask`,
the next press advances `previous := current` exactly when its
translated character equals the common mapped character; any other
press leaves `previous` latched at the modifier. -/
theorem degenerate_valve_amended (d : VdevState) (s : Nat)
    (hdeg : d.map0 = d.map1 ∧ d.map1 = d.map2 ∧ d.map2 = d.map3)
    (hp : d.buf0 = SCANCODE_LALT_MASK) :
    (scancode_to_ascii s = d.map0 → (put_scancode d s).buf0 = d.buf1) ∧
    (scancode_to_ascii s ≠ d.map0 → (put_scancode d s).buf0 = d.buf0) := by
  obtain ⟨e1, e2, e3⟩ := hdeg
  unfold put_scancode
  dsimp only
  split_ifs with h
  · rcases h with h | h
    · exact absurd hp h
    · exact ⟨fun _ => rfl, fun hne => absurd h.1 hne⟩
  · constructor
    · intro hch
      exact absurd (Or.inr ⟨hch, e1 ▸ hch, (e1.trans e2) ▸ hch,
        (e1.trans (e2.trans e3)) ▸ hch⟩) h
    · intro _
      rfl

theorem degenerate_valve_amended_witness :
    let d : VdevState :=
      { buf0 := SCANCODE_LALT_MASK, buf1 := 0x1e
        map0 := 'a'.toNat, map1 := 'a'.toNat, map2 := 'a'.toNat
        map3 := 'a'.toNat, spd := 10 }
    (d.map0 = d.map1 ∧ d.map1 = d.map2 ∧ d.map2 = d.map3) ∧
    d.buf0 = SCANCODE_LALT_MASK ∧
    ((scancode_to_ascii 0x1e = d.map0 → (put_scancode d 0x1e).buf0 = d.buf1) ∧
     (scancode_to_ascii 0x1e ≠ d.map0 → (put_scancode d 0x1e).buf0 = d.buf0)) :=
  ⟨by decide, by decide, degenerate_valve_amended _ 0x1e (by decide) (by decide)⟩

/-- Reads below the copied size of the control buffer see the caller's
bytes, not the adjacent heap. -/
theorem copied_getD (ubuf heap : List Nat) (i : Nat)
    (hi : i < min BUF_SIZE ubuf.length) :
    (ubuf.take (min BUF_SIZE ubuf.length) ++ heap).getD i 0 = ubuf.getD i 0 := by
  have h1 : i < (ubuf.take (min BUF_SIZE ubuf.length)).length := by
    rw [List.length_take]
    omega
  have h2 : i < ubuf.length := lt_of_lt_of_le hi (min_le_right _ _)
  rw [List.getD_append _ _ _ _ h1, List.getD_eq_getElem _ _ h1,
    List.getD_eq_getElem _ _ h2]
  exact List.getElem_take ubuf

/-- C6 counterexample: the 2-byte control write "0 " has a recognized
command digit but a too-short payload; the claim says it must be a
no-op on the map, yet with 'x' bytes in the adjacent heap the map's
first character becomes 'x' (the `memcpy` reads past the copied
bytes).  The returned count is still the consumed size 2. -/
theorem short_map_write_counterexample :
    (vdev_write initState (strBytes "0 ")
        ['x'.toNat, 'x'.toNat, 'x'.toNat, 'x'.toNat]).2 = 2 ∧
    (vdev_write initState (strBytes "0 ")
        ['x'.toNat, 'x'.toNat, 'x'.toNat, 'x'.toNat]).1.map0 ≠ initState.map0 := by
  decide

/-- C6 amended: a control write whose command digit is unrecognized is a
no-op on DirectionConfig; an SPD write whose byte stream (the payload
followed by the adjacent heap bytes up to the first NUL) fails to parse
leaves DirectionConfig unchanged; and in every case on the copy success
path the returned count is the non-negative consumed size
`min 64 count`.  (A MAP write shorter than 6 bytes is not a no-op: it
overwrites the map with unspecified adjacent heap bytes.)  Zero-length
writes are excluded by the `1 ≤ count` hypothesis: there the code reads
byte 0 out of a `kmalloc(0)` zero-size allocation, a fault the state
model does not represent. -/
theorem vdev_write_malformed_amended (d : VdevState) (ubuf heap : List Nat)
    (hlen : 1 ≤ ubuf.length) :
    ((ubuf.getD 0 0 ≠ 48 ∧ ubuf.getD 0 0 ≠ 49) → (vdev_write d ubuf heap).1 = d) ∧
    ((ubuf.getD 0 0 = 49 ∧
        kstrtol ((ubuf.take (min BUF_SIZE ubuf.length) ++ heap).drop 2) = none) →
      (vdev_write d ubuf heap).1 = d) ∧
    (vdev_write d ubuf heap).2 = min BUF_SIZE ubuf.length := by
  have hbuf : BUF_SIZE = 64 := rfl
  have h0 := copied_getD ubuf heap 0 (by omega)
  unfold vdev_write
  dsimp only
  rw [h0]
  refine ⟨?_, ?_, rfl⟩
  · rintro ⟨h48, h49⟩
    have c0 : ((ubuf.getD 0 0 : Nat) : Int) - 48 ≠ 0 := by omega
    have c1 : ((ubuf.getD 0 0 : Nat) : Int) - 48 ≠ 1 := by omega
    rw [if_neg c0, if_neg c1]
  · rintro ⟨h49, hparse⟩
    have c0 : ((ubuf.getD 0 0 : Nat) : Int) - 48 ≠ 0 := by omega
    have c1 : ((ubuf.getD 0 0 : Nat) : Int) - 48 = 1 := by omega
    rw [if_neg c0, if_pos c1, hparse]

theorem vdev_write_malformed_amended_witness :
    1 ≤ (strBytes "7 junk").length ∧
    ((((strBytes "7 junk").getD 0 0 ≠ 48 ∧ (strBytes "7 junk").getD 0 0 ≠ 49) →
        (vdev_write initState (strBytes "7 junk") []).1 = initState) ∧
      (((strBytes "7 junk").getD 0 0 = 49 ∧
          kstrtol (((strBytes "7 junk").take
            (min BUF_SIZE (strBytes "7 junk").length) ++ []).drop 2) = none) →
        (vdev_write initState (strBytes "7 junk") []).1 = initState) ∧
      (vdev_write initState (strBytes "7 junk") []).2 =
        min BUF_SIZE (strBytes "7 junk").length) :=
  ⟨by decide, vdev_write_malformed_amended initState (strBytes "7 junk") [] (by decide)⟩

/-- C7 (Scenario B depends on uninitialized memory): when a NUL byte
happens to follow the copied bytes in the `kmalloc`'d buffer, the
control writes "0 ujhk" then "1 50" set the map and the speed, and the
press sequences (modifier, 'u'-key) and then 'k'-key emit (0, −50) and
(50, 0) exactly as the claim states; but when the adjacent heap byte is
'x', `kstrtol` fails on the unterminated buffer, the speed silently
stays 10, and the same presses emit (0, −10) and (10, 0). -/
theorem scenario_b_heap_dependent :
    (let d1 := (vdev_write initState (strBytes "0 ujhk") []).1
     let d2 := (vdev_write d1 (strBytes "1 50") []).1
     let d3 := put_scancode (put_scancode d2 0x38) 0x16
     d2.spd = 50 ∧
       mouse_tasklet_handler d3 = [Event.relY (-50), Event.sync] ∧
       mouse_tasklet_handler (put_scancode d3 0x25) = [Event.relX 50, Event.sync]) ∧
    (let d1 := (vdev_write initState (strBytes "0 ujhk") []).1
     let d2 := (vdev_write d1 (strBytes "1 50") ['x'.toNat]).1
     let d3 := put_scancode (put_scancode d2 0x38) 0x16
     d2.spd = 10 ∧
       mouse_tasklet_handler d3 = [Event.relY (-10), Event.sync] ∧
       mouse_tasklet_handler (put_scancode d3 0x25) = [Event.relX 10, Event.sync]) := by
  decide

/-- C8 (parse-failure handling also depends on uninitialized memory):
the SPD write "1 -" has a payload that is not a parseable integer, yet
with the adjacent heap bytes '5', NUL the stored speed changes from 10
to −5 (`kstrtol` keeps reading past the payload); a payload such as
"xy" that can never begin a number leaves the speed unchanged for every
heap content. -/
theorem spd_parse_failure_heap :
    ((vdev_write initState (strBytes "1 -") ['5'.toNat]).1.spd = -5 ∧
      initState.spd = 10) ∧
    (∀ heap : List Nat,
      (vdev_write initState (strBytes "1 xy") heap).1.spd = initState.spd) := by
  refine ⟨by decide, fun heap => rfl⟩

/-- The four directions, in the fixed comparison order of the
translation stage. -/
inductive Dir where
  | up
  | down
  | left
  | right
deriving DecidableEq, Repr

/-- The event pair the translation stage emits for each direction. -/
def dirEvents (d : VdevState) : Dir → List Event
  | Dir.up => [Event.relY (-d.spd), Event.sync]
  | Dir.down => [Event.relY d.spd, Event.sync]
  | Dir.left => [Event.relX (-d.spd), Event.sync]
  | Dir.right => [Event.relX d.spd, Event.sync]

/-- First direction, in {up, down, left, right} order, whose mapped
character equals `c`. -/
def firstMatch (d : VdevState) (c : Nat) : Option Dir :=
  if c = d.map0 then some Dir.up
  else if c = d.map1 then some Dir.down
  else if c = d.map2 then some Dir.left
  else if c = d.map3 then some Dir.right
  else none

/-- C9: the sentinel `'?'` is an ordinary matchable character: the
modifier scancode itself translates to `'?'`, and whenever the current
key translates to `'?'` (any out-of-table code, a second modifier press
included) while `previous = ModifierMask`, the translation stage emits
the movement of the first direction whose mapped character is `'?'`. -/
theorem sentinel_matchable :
    scancode_to_ascii SCANCODE_LALT_MASK = '?'.toNat ∧
    ∀ (d : VdevState) (dir : Dir), d.buf0 = SCANCODE_LALT_MASK →
      scancode_to_ascii d.buf1 = '?'.toNat →
      firstMatch d '?'.toNat = some dir →
      mouse_tasklet_handler d = dirEvents d dir := by
  refine ⟨by decide, ?_⟩
  intro d dir hp hch hfm
  unfold mouse_tasklet_handler
  dsimp only
  rw [if_pos hp, hch]
  unfold firstMatch at hfm
  split_ifs at hfm ⊢ <;> simp_all [dirEvents] <;> (cases hfm; rfl)

/-- Device state used to instantiate the C9 theorem: a second modifier
press with `'?'` mapped as the "down" direction. -/
def qState : VdevState :=
  { buf0 := SCANCODE_LALT_MASK, buf1 := SCANCODE_LALT_MASK
    map0 := 'w'.toNat, map1 := '?'.toNat, map2 := 'a'.toNat
    map3 := '?'.toNat, spd := 10 }

theorem sentinel_matchable_witness :
    qState.buf0 = SCANCODE_LALT_MASK ∧
    scancode_to_ascii qState.buf1 = '?'.toNat ∧
    firstMatch qState '?'.toNat = some Dir.down ∧
    mouse_tasklet_handler qState = dirEvents qState Dir.down :=
  ⟨by decide, by decide, by decide,
    sentinel_matchable.2 qState Dir.down (by decide) (by decide) (by decide)⟩

/-- A MAP control write replaces the four map characters with bytes 2–5
of the copy buffer and leaves everything else unchanged. -/
theorem vdev_write_map_cmd (d : VdevState) (ubuf heap : List Nat)
    (hc : (ubuf.take (min BUF_SIZE ubuf.length) ++ heap).getD 0 0 = 48) :
    (vdev_write d ubuf heap).1 =
      { d with
        map0 := (ubuf.take (min BUF_SIZE ubuf.length) ++ heap).getD 2 0
        map1 := (ubuf.take (min BUF_SIZE ubuf.length) ++ heap).getD 3 0
        map2 := (ubuf.take (min BUF_SIZE ubuf.length) ++ heap).getD 4 0
        map3 := (ubuf.take (min BUF_SIZE ubuf.length) ++ heap).getD 5 0 } := by
  unfold vdev_write
  dsimp only
  rw [hc]
  rw [if_pos (show ((48 : Nat) : Int) - 48 = 0 by norm_num)]

/-- C10: noninterference of ignored bytes in MAP control writes — two
writes with command digit '0', of equal length at least 6, agreeing on
payload bytes 2 through 5, produce identical maps regardless of the
separator byte 1, of all bytes from position 6 on, and of the adjacent
heap contents. -/
theorem map_write_noninterference (d : VdevState) (b1 b2 h1 h2 : List Nat)
    (hlen : b1.length = b2.length) (h6 : 6 ≤ b1.length)
    (hc1 : b1.getD 0 0 = 48) (hc2 : b2.getD 0 0 = 48)
    (e2 : b1.getD 2 0 = b2.getD 2 0) (e3 : b1.getD 3 0 = b2.getD 3 0)
    (e4 : b1.getD 4 0 = b2.getD 4 0) (e5 : b1.getD 5 0 = b2.getD 5 0) :
    (vdev_write d b1 h1).1.map0 = (vdev_write d b2 h2).1.map0 ∧
    (vdev_write d b1 h1).1.map1 = (vdev_write d b2 h2).1.map1 ∧
    (vdev_write d b1 h1).1.map2 = (vdev_write d b2 h2).1.map2 ∧
    (vdev_write d b1 h1).1.map3 = (vdev_write d b2 h2).1.map3 := by
  have hbuf : BUF_SIZE = 64 := rfl
  have g1 : ∀ i, i < 6 →
      (b1.take (min BUF_SIZE b1.length) ++ h1).getD i 0 = b1.getD i 0 :=
    fun i hi => copied_getD b1 h1 i (by omega)
  have g2 : ∀ i, i < 6 →
      (b2.take (min BUF_SIZE b2.length) ++ h2).getD i 0 = b2.getD i 0 :=
    fun i hi => copied_getD b2 h2 i (by omega)
  rw [vdev_write_map_cmd d b1 h1 (by rw [g1 0 (by omega)]; exact hc1),
    vdev_write_map_cmd d b2 h2 (by rw [g2 0 (by omega)]; exact hc2)]
  refine ⟨?_, ?_, ?_, ?_⟩ <;> dsimp only <;>
    rw [g1 _ (by omega), g2 _ (by omega)]
  · exact e2
  · exact e3
  · exact e4
  · exact e5

theorem map_write_noninterference_witness :
    ((strBytes "0 ujhkAA").length = (strBytes "0#ujhkZZ").length ∧
      6 ≤ (strBytes "0 ujhkAA").length ∧
      (strBytes "0 ujhkAA").getD 0 0 = 48 ∧ (strBytes "0#ujhkZZ").getD 0 0 = 48 ∧
      (strBytes "0 ujhkAA").getD 2 0 = (strBytes "0#ujhkZZ").getD 2 0 ∧
      (strBytes "0 ujhkAA").getD 3 0 = (strBytes "0#ujhkZZ").getD 3 0 ∧
      (strBytes "0 ujhkAA").getD 4 0 = (strBytes "0#ujhkZZ").getD 4 0 ∧
      (strBytes "0 ujhkAA").getD 5 0 = (strBytes "0#ujhkZZ").getD 5 0) ∧
    ((vdev_write initState (strBytes "0 ujhkAA") []).1.map0 =
      (vdev_write initState (strBytes "0#ujhkZZ") ['q'.toNat]).1.map0 ∧
     (vdev_write initState (strBytes "0 ujhkAA") []).1.map1 =
      (vdev_write initState (strBytes "0#ujhkZZ") ['q'.toNat]).1.map1 ∧
     (vdev_write initState (strBytes "0 ujhkAA") []).1.map2 =
      (vdev_write initState (strBytes "0#ujhkZZ") ['q'.toNat]).1.map2 ∧
     (vdev_write initState (strBytes "0 ujhkAA") []).1.map3 =
      (vdev_write initState (strBytes "0#ujhkZZ") ['q'.toNat]).1.map3) :=
  ⟨by decide,
    map_write_noninterference initState (strBytes "0 ujhkAA") (strBytes "0#ujhkZZ")
      [] ['q'.toNat] (by decide) (by decide) (by decide) (by decide)
      (by decide) (by decide) (by decide) (by decide)⟩

end Vdev
